import Mathlib

/-! ## todo_task: the state-synchronisation core of `src/App.js`

A shallow embedding of the `TodoApp` component of `src/App.js`: the component
state held in its `useState` hooks, the request URL that `fetchTodos` builds,
and the four handlers `fetchTodos`, `addTodo`, `updateTodo`, `deleteTodo`
together with `markCompleted`.

Conventions of the embedding.

* A JavaScript value is a `JsVal`; a JavaScript object is a `JsObj`, an ordered
  list of properties; reading a property that is absent yields `undefined`.
* `axios` is a parameter: a record of four functions that answer a request
  either with the response data or with the error the awaited call throws.
* `new Date().toISOString()` is a parameter: every evaluation of that
  expression in the source is one argument of the embedded function.
* An `async` function is split at its `await`: a `Start` part that runs in the
  world of the call and hands the request to `axios`, and a `Resume` part that
  runs in the world as it is when the request settles and returns the way the
  promise settles, paired with the world after it. What the closure holds
  across the `await` (the variable `todos` of the call-time render) is an
  argument of the `Resume` part. The handler under its own name is the two
  parts run with nothing in between.
-/

namespace TodoApp

/-! ## JavaScript values and objects -/

/-- The JavaScript values that occur in the component. -/
inductive JsVal where
  | undefined
  | str (s : String)
  | num (n : Nat)
  deriving DecidableEq, Repr

/-- String conversion of a value inside a template literal. A number is
printed in decimal digits, which is what JavaScript prints for an integer
below `10^21`; ids are the small integers or strings that the resource
assigns. -/
def JsVal.toTemplate : JsVal → String
  | .undefined => "undefined"
  | .str s => s
  | .num n => toString n

/-- A JavaScript object: its properties in insertion order. -/
structure JsObj where
  props : List (String × JsVal)
  deriving DecidableEq, Repr

/-- Property read `o.k`: the value stored under `k`, `undefined` when absent. -/
def JsObj.get (o : JsObj) (k : String) : JsVal :=
  match o.props.lookup k with
  | some v => v
  | none => JsVal.undefined

/-- The properties that `JSON.stringify` keeps: those whose value is not
`undefined`. This is the body that `axios` puts on the wire. -/
def JsObj.toJSON (o : JsObj) : JsObj :=
  ⟨o.props.filter (fun p => decide (p.2 ≠ JsVal.undefined))⟩

/-- A todo record, as the server returns it. -/
abbrev Todo := JsObj

/-! ## Component state (App.js lines 9-14, 23) -/

/-- The values of the `useState` hooks of `TodoApp`. -/
structure State where
  todos : List Todo
  selectedTodo : Option Todo
  filterStatus : String
  filterTitle : String
  sortTitle : String
  sortDate : String
  deriving DecidableEq, Repr

/-- The initial values of the hooks (lines 9-14). -/
def initialState : State :=
  { todos := []
    selectedTodo := none
    filterStatus := "all"
    filterTitle := ""
    sortTitle := "asc"
    sortDate := "asc" }

/-- Line 23. -/
def API_URL : String := "http://localhost:3001"

/-! ## The request URL of `fetchTodos` (lines 32-42) -/

/-- The value of `url` when `axios.get(url)` is called (lines 32-42). -/
def fetchTodosUrl (s : State) : String := Id.run do
  let mut url := API_URL ++ "/todos"
  if s.filterStatus ≠ "all" then
    url := url ++ ("?status=" ++ s.filterStatus)
  if s.filterTitle ≠ "" then
    url := url ++ ("&title_like=" ++ s.filterTitle)
  url := url ++ ("&_sort=title&_order=" ++ s.sortTitle ++ "," ++ s.sortDate)
  return url

/-- The well-formedness of a list URL: it starts with the path
`API_URL/todos`; what follows the path is either nothing, or one `?` followed
by non-empty parameters separated by `&`, with no second `?`. -/
def wellFormedUrl (url : String) : Bool :=
  let path := (API_URL ++ "/todos").toList
  path.isPrefixOf url.toList &&
    match url.toList.drop path.length with
    | [] => true
    | c :: rest =>
      c == '?' && !rest.contains '?' && (rest.splitOn '&').all (fun p => !p.isEmpty)

/-! ## The network and the world around the component -/

/-- The error that an awaited `axios` call throws. -/
inductive AxiosError where
  | network
  | status (code : Nat)
  deriving DecidableEq, Repr

/-- The HTTP method of a request. -/
inductive Method where
  | GET
  | POST
  | PATCH
  | DELETE
  deriving DecidableEq, Repr

/-- A request handed to `axios`: method, URL and the data argument. -/
structure Request where
  method : Method
  url : String
  data : Option JsObj
  deriving DecidableEq, Repr

/-- The `axios` module as the component uses it: each call either returns
`response.data` or throws. -/
structure Axios where
  get : String → Except AxiosError (List Todo)
  post : String → JsObj → Except AxiosError Todo
  patch : String → JsObj → Except AxiosError Todo
  delete : String → Except AxiosError Unit

/-- The way the promise of an `async` function settles. -/
inductive Settled where
  | fulfilled
  | rejected (e : AxiosError)
  deriving DecidableEq, Repr

/-- The component state together with what the handlers do to their
surroundings: the requests handed to `axios` (oldest first), the calls of
`console.error` (label and error, oldest first) and the number of calls of
`resetForm`. -/
structure World where
  state : State
  requests : List Request
  console : List (String × AxiosError)
  formResets : Nat
  deriving DecidableEq, Repr

/-- The call `setTodos(v)`. -/
def World.setTodos (w : World) (v : List Todo) : World :=
  { w with state := { w.state with todos := v } }

/-- The call `console.error(label, error)`. -/
def World.consoleError (w : World) (label : String) (e : AxiosError) : World :=
  { w with console := w.console ++ [(label, e)] }

/-- Handing a request to `axios`. -/
def World.send (w : World) (r : Request) : World :=
  { w with requests := w.requests ++ [r] }

/-! ## fetchTodos (lines 30-49) -/

/-- The part of `fetchTodos` after `await axios.get(url)` (lines 45-48): on a
response `setTodos(response.data)`, on a thrown error the `catch` block. -/
def fetchTodosResume (r : Except AxiosError (List Todo)) (w : World) : Settled × World :=
  match r with
  | .ok data => (Settled.fulfilled, w.setTodos data)
  | .error e => (Settled.fulfilled, w.consoleError "Error fetching todos:" e)

/-- The part of `fetchTodos` up to the `await` (lines 32-44): the URL is built
and the GET request is handed to `axios`. -/
def fetchTodosStart (w : World) : World :=
  w.send ⟨Method.GET, fetchTodosUrl w.state, none⟩

/-- The handler `fetchTodos` run to completion (lines 30-49). -/
def fetchTodos (axios : Axios) (w : World) : Settled × World :=
  fetchTodosResume (axios.get (fetchTodosUrl w.state)) (fetchTodosStart w)

/-! ## addTodo (lines 51-67) -/

/-- The object `newTodo` of `addTodo` (lines 53-59). `now1` and `now2` are the
results of the two evaluations of `new Date().toISOString()`, in order. -/
def addTodo_newTodo (values : JsObj) (now1 now2 : String) : JsObj :=
  ⟨[("title", values.get "title"),
    ("description", values.get "description"),
    ("status", JsVal.str "uncompleted"),
    ("created_at", JsVal.str now1),
    ("updated_at", JsVal.str now2)]⟩

/-- The part of `addTodo` up to the `await` (lines 53-61): `newTodo` is built
and the POST request is handed to `axios`. -/
def addTodoStart (values : JsObj) (now1 now2 : String) (w : World) : World :=
  w.send ⟨Method.POST, API_URL ++ "/todos", some (addTodo_newTodo values now1 now2)⟩

/-- The part of `addTodo` after `await axios.post(..)` (lines 62-66), run in
the world `w` as it is when the request settles. `todos` is the variable
`todos` of the closure: the store as it was when `addTodo` was called. On a
response the store is overwritten with `[...todos, response.data]` and
`resetForm()` is called; on a thrown error the `catch` block logs. -/
def addTodoResume (todos : List Todo) (r : Except AxiosError Todo) (w : World) :
    Settled × World :=
  match r with
  | .ok data =>
    let w2 := w.setTodos (todos ++ [data])
    (Settled.fulfilled, { w2 with formResets := w2.formResets + 1 })
  | .error e => (Settled.fulfilled, w.consoleError "Error adding todo:" e)

/-- The handler `addTodo` (lines 51-67) run to completion with nothing
happening while the request is in flight. -/
def addTodo (axios : Axios) (values : JsObj) (now1 now2 : String) (w : World) :
    Settled × World :=
  addTodoResume w.state.todos
    (axios.post (API_URL ++ "/todos") (addTodo_newTodo values now1 now2))
    (addTodoStart values now1 now2 w)

/-! ## updateTodo (lines 69-82) and markCompleted (lines 88-99) -/

/-- The object `updates` of `updateTodo` (lines 71-75). -/
def updateTodo_updates (values : JsObj) (now : String) : JsObj :=
  ⟨[("title", values.get "title"),
    ("description", values.get "description"),
    ("updated_at", JsVal.str now)]⟩

/-- The PATCH request of `updateTodo` (line 77). -/
def updateTodoRequest (id : JsVal) (values : JsObj) (now : String) : Request :=
  ⟨Method.PATCH, API_URL ++ "/todos/" ++ id.toTemplate, some (updateTodo_updates values now)⟩

/-- The part of `updateTodo` up to the `await` (lines 71-77): `updates` is
built and the PATCH request is handed to `axios`. -/
def updateTodoStart (id : JsVal) (values : JsObj) (now : String) (w : World) : World :=
  w.send (updateTodoRequest id values now)

/-- The part of `updateTodo` after `await axios.patch(..)` (lines 78-81), run
in the world `w` as it is when the request settles. `todos` is the variable
`todos` of the closure: the store as it was when `updateTodo` was called. On a
response the store is overwritten with
`todos.map((todo) => (todo.id === id ? response.data : todo))`; on a thrown
error the `catch` block logs. -/
def updateTodoResume (id : JsVal) (todos : List Todo) (r : Except AxiosError Todo)
    (w : World) : Settled × World :=
  match r with
  | .ok data =>
    (Settled.fulfilled,
      w.setTodos (todos.map (fun todo => if todo.get "id" = id then data else todo)))
  | .error e => (Settled.fulfilled, w.consoleError "Error updating todo:" e)

/-- The handler `updateTodo` (lines 69-82) run to completion with nothing
happening while the request is in flight. -/
def updateTodo (axios : Axios) (id : JsVal) (values : JsObj) (now : String) (w : World) :
    Settled × World :=
  updateTodoResume id w.state.todos
    (axios.patch (API_URL ++ "/todos/" ++ id.toTemplate) (updateTodo_updates values now))
    (updateTodoStart id values now w)

/-- The object `updates` of `markCompleted` (lines 90-93). -/
def markCompleted_updates (now : String) : JsObj :=
  ⟨[("status", JsVal.str "completed"), ("updated_at", JsVal.str now)]⟩

/-- The handler `markCompleted` (lines 88-99). `now1` is the clock reading of
line 92, `now2` the one `updateTodo` takes at line 74. The promise of
`updateTodo` never rejects, so the `catch` block of line 96 is not entered. -/
def markCompleted (axios : Axios) (id : JsVal) (now1 now2 : String) (w : World) :
    Settled × World :=
  match updateTodo axios id (markCompleted_updates now1) now2 w with
  | (Settled.fulfilled, w1) => (Settled.fulfilled, w1)
  | (Settled.rejected e, w1) =>
    (Settled.fulfilled, w1.consoleError "Error marking todo as completed:" e)

/-! ## deleteTodo (lines 101-108) -/

/-- The part of `deleteTodo` up to the `await` (line 103): the DELETE request
is handed to `axios`. -/
def deleteTodoStart (id : JsVal) (w : World) : World :=
  w.send ⟨Method.DELETE, API_URL ++ "/todos/" ++ id.toTemplate, none⟩

/-- The part of `deleteTodo` after `await axios.delete(..)` (lines 104-107),
run in the world `w` as it is when the request settles. `todos` is the
variable `todos` of the closure: the store as it was when `deleteTodo` was
called. On a response the store is overwritten with
`todos.filter((todo) => todo.id !== id)`; on a thrown error the `catch` block
logs. -/
def deleteTodoResume (id : JsVal) (todos : List Todo) (r : Except AxiosError Unit)
    (w : World) : Settled × World :=
  match r with
  | .ok _ => (Settled.fulfilled, w.setTodos (todos.filter (fun todo => todo.get "id" ≠ id)))
  | .error e => (Settled.fulfilled, w.consoleError "Error deleting todo:" e)

/-- The handler `deleteTodo` (lines 101-108) run to completion with nothing
happening while the request is in flight. -/
def deleteTodo (axios : Axios) (id : JsVal) (w : World) : Settled × World :=
  deleteTodoResume id w.state.todos (axios.delete (API_URL ++ "/todos/" ++ id.toTemplate))
    (deleteTodoStart id w)

/-! ## The store operation of the specification -/

/-- The store operation `upsertOne(todo)` in the words of the specification:
the entry with matching id is replaced if one is present, otherwise the todo
is appended. -/
def upsertOne (store : List Todo) (t : Todo) : List Todo :=
  if store.any (fun x => decide (x.get "id" = t.get "id")) then
    store.map (fun x => if x.get "id" = t.get "id" then t else x)
  else
    store ++ [t]

/-! ## A resource that applies PATCH bodies field by field -/

/-- Assignment `o[k] = v`: the property is overwritten in place when present
and added at the end otherwise. -/
def JsObj.set (o : JsObj) (k : String) (v : JsVal) : JsObj :=
  if o.props.any (fun p => decide (p.1 = k)) then
    ⟨o.props.map (fun p => if p.1 = k then (k, v) else p)⟩
  else
    ⟨o.props ++ [(k, v)]⟩

/-- Modelled from the spec: the remote collection resource is not part of the
repository. A PATCH body is applied to a record field by field: every
property of the transmitted JSON body overwrites (or adds) the property of
the same name, all other properties of the record stay. -/
def patchRecord (body : JsObj) (r : Todo) : Todo :=
  body.toJSON.props.foldl (fun acc p => acc.set p.1 p.2) r

/-- Modelled from the spec: the remote collection resource is not part of the
repository. It handles `PATCH /todos/:id` by patching every record whose id
is the one named in the URL; other requests do not change the records. -/
def resourceHandle (db : List Todo) (req : Request) : List Todo :=
  match req.method, req.data with
  | Method.PATCH, some body =>
    db.map (fun r =>
      if API_URL ++ "/todos/" ++ (r.get "id").toTemplate = req.url then patchRecord body r else r)
  | _, _ => db

/-- A call of one of the two handlers that submit a PATCH request. -/
inductive Call where
  | update (id : JsVal) (values : JsObj) (now : String)
  | markCompleted (id : JsVal) (now1 now2 : String)
  deriving DecidableEq, Repr

/-- Running the handler that a call names. -/
def Call.run (axios : Axios) : Call → World → Settled × World
  | Call.update id values now => updateTodo axios id values now
  | Call.markCompleted id now1 now2 => TodoApp.markCompleted axios id now1 now2

/-- The records of the resource together with the world of the component. -/
structure System where
  db : List Todo
  world : World
  deriving DecidableEq, Repr

/-- One call against the resource: the handler runs, and the resource handles
the requests that the handler handed to `axios` during the call. The answers
of `axios` are left arbitrary. -/
def Call.step (axios : Axios) (c : Call) (s : System) : System :=
  let w := (c.run axios s.world).2
  ⟨(w.requests.drop s.world.requests.length).foldl resourceHandle s.db, w⟩

/-- A sequence of calls, each with the `axios` that answers it. -/
def runCalls : List (Axios × Call) → System → System
  | [], s => s
  | (axios, c) :: rest, s => runCalls rest (c.step axios s)

/-! ## Requests in flight (lines 25-27 and 186) -/

/-- The world of the component together with the GET requests of `fetchTodos`
that are awaited and not yet settled, each named by its position in
`world.requests`. -/
structure AsyncWorld where
  world : World
  pending : List Nat
  deriving DecidableEq, Repr

/-- What happens around `fetchTodos`. -/
inductive Event where
  /-- A call `fetchTodos()` with the criteria as they are: the effect at mount
  (line 26) or the Apply button (line 186). -/
  | fetchIssued
  /-- The setters of lines 11-14 store new criteria; when a value differs from
  the stored one the effect of lines 25-27 calls `fetchTodos()`. -/
  | criteriaChanged (filterStatus filterTitle sortTitle sortDate : String)
  /-- The awaited `axios.get` of request number `n` settles with `r`. -/
  | settled (n : Nat) (r : Except AxiosError (List Todo))

/-- The call `fetchTodos()` up to its `await`. -/
def AsyncWorld.issue (a : AsyncWorld) : AsyncWorld :=
  ⟨fetchTodosStart a.world, a.pending ++ [a.world.requests.length]⟩

/-- One event. -/
def AsyncWorld.step (a : AsyncWorld) : Event → AsyncWorld
  | Event.fetchIssued => a.issue
  | Event.criteriaChanged fs ft st sd =>
    let s := a.world.state
    let s1 := { s with filterStatus := fs, filterTitle := ft, sortTitle := st, sortDate := sd }
    if s1 = s then a else AsyncWorld.issue ⟨{ a.world with state := s1 }, a.pending⟩
  | Event.settled n r =>
    if n ∈ a.pending then ⟨(fetchTodosResume r a.world).2, a.pending.erase n⟩ else a

/-- A sequence of events, oldest first. -/
def AsyncWorld.run (a : AsyncWorld) (events : List Event) : AsyncWorld :=
  events.foldl AsyncWorld.step a

/-! ## Sample data -/

/-- A todo record with the given id, title and status. -/
def sampleTodo (id : Nat) (title status : String) : Todo :=
  ⟨[("id", JsVal.num id), ("title", JsVal.str title), ("description", JsVal.str "d"),
    ("status", JsVal.str status),
    ("created_at", JsVal.str "2024-01-01T00:00:00.000Z"),
    ("updated_at", JsVal.str "2024-01-01T00:00:00.000Z")]⟩

/-- A world whose store holds two todos. -/
def sampleWorld : World :=
  { state := { initialState with
      todos := [sampleTodo 1 "Buy milk" "uncompleted", sampleTodo 2 "Call" "completed"] }
    requests := []
    console := []
    formResets := 0 }

/-- An `axios` whose every request fails with the given error. -/
def failingAxios (e : AxiosError) : Axios :=
  { get := fun _ => Except.error e
    post := fun _ _ => Except.error e
    patch := fun _ _ => Except.error e
    delete := fun _ => Except.error e }

/-- An `axios` whose every request succeeds: GET answers `listed`, POST and
PATCH answer `t`. -/
def answeringAxios (listed : List Todo) (t : Todo) : Axios :=
  { get := fun _ => Except.ok listed
    post := fun _ _ => Except.ok t
    patch := fun _ _ => Except.ok t
    delete := fun _ => Except.ok () }

/-- The values of the edit form. -/
def sampleValues : JsObj :=
  ⟨[("title", JsVal.str "Buy milk"), ("description", JsVal.str "2%")]⟩

/-- A world with an empty store and the default criteria, nothing sent yet. -/
def initialWorld : World :=
  { state := initialState, requests := [], console := [], formResets := 0 }

/-- Three calls on the record with id 2: `markCompleted` twice, the second one
with a failing network, then an edit of title and description. -/
def sampleCalls : List (Axios × Call) :=
  [(answeringAxios [] (sampleTodo 2 "Call" "completed"),
      Call.markCompleted (JsVal.num 2) "2024-01-02T00:00:00.000Z" "2024-01-02T00:00:00.001Z"),
    (failingAxios AxiosError.network,
      Call.markCompleted (JsVal.num 2) "2024-01-03T00:00:00.000Z" "2024-01-03T00:00:00.001Z"),
    (answeringAxios [] (sampleTodo 2 "Call" "completed"),
      Call.update (JsVal.num 2) sampleValues "2024-01-04T00:00:00.000Z")]

/-- A resource that holds the two todos of `sampleWorld`. -/
def sampleSystem : System :=
  ⟨[sampleTodo 1 "Buy milk" "uncompleted", sampleTodo 2 "Call" "completed"], sampleWorld⟩

/-- A create in flight across a refetch: `addTodo` is called on the store of
todos 1 and 2, and before the POST settles a list response brings todos 1, 2
and 3. -/
def addInFlightWorld : World :=
  (fetchTodosResume
    (Except.ok [sampleTodo 1 "Buy milk" "uncompleted", sampleTodo 2 "Call" "completed",
      sampleTodo 3 "Walk" "uncompleted"])
    (fetchTodosStart (addTodoStart sampleValues "t1" "t2" sampleWorld))).2

/-- An update in flight across a refetch: `updateTodo(1, _)` is called on the
store of todos 1 and 2, and before the PATCH settles a list response brings
todos 1, 2 and 3. -/
def updateInFlightWorld : World :=
  (fetchTodosResume
    (Except.ok [sampleTodo 1 "Buy milk" "uncompleted", sampleTodo 2 "Call" "completed",
      sampleTodo 3 "Walk" "uncompleted"])
    (fetchTodosStart (updateTodoStart (JsVal.num 1) sampleValues "t1" sampleWorld))).2

/-- Two deletes in flight: Delete is clicked on todo 1 and then on todo 2 of
the store of todos 1 and 2, before either request settles. -/
def twoDeletesIssued : World :=
  deleteTodoStart (JsVal.num 2) (deleteTodoStart (JsVal.num 1) sampleWorld)

/-- The world after `DELETE /todos/1` succeeded while `DELETE /todos/2` is
still in flight. The closure of `deleteTodo(1)` holds the store of
`sampleWorld`. -/
def afterFirstDelete : World :=
  (deleteTodoResume (JsVal.num 1) sampleWorld.state.todos (Except.ok ()) twoDeletesIssued).2

/-- The world after `DELETE /todos/2` succeeded as well. The closure of
`deleteTodo(2)` holds the store as it was at the second click, when no
request had settled. -/
def afterSecondDelete : World :=
  (deleteTodoResume (JsVal.num 2) (deleteTodoStart (JsVal.num 1) sampleWorld).state.todos
    (Except.ok ()) afterFirstDelete).2

/-! ## Theorems -/

/-- C1 (the code at the claim's input): for every id the handler
`markCompleted` hands exactly one request to `axios`, the PATCH request of
`updateTodo`; the `status` property of its body is `undefined`, not
`'completed'`, and the JSON body on the wire is `updated_at` alone. -/
theorem markCompleted_body_has_no_status (axios : Axios) (id : JsVal) (now1 now2 : String)
    (w : World) :
    (markCompleted axios id now1 now2 w).2.requests
        = w.requests ++ [updateTodoRequest id (markCompleted_updates now1) now2]
      ∧ (updateTodoRequest id (markCompleted_updates now1) now2).data
        = some (updateTodo_updates (markCompleted_updates now1) now2)
      ∧ (updateTodo_updates (markCompleted_updates now1) now2).get "status" = JsVal.undefined
      ∧ (updateTodo_updates (markCompleted_updates now1) now2).toJSON
        = ⟨[("updated_at", JsVal.str now2)]⟩ := by
  refine ⟨?_, rfl, rfl, rfl⟩
  cases h : axios.patch (API_URL ++ "/todos/" ++ id.toTemplate)
      (updateTodo_updates (markCompleted_updates now1) now2) <;>
    simp [markCompleted, updateTodo, updateTodoResume, updateTodoStart, h, World.send,
      World.setTodos, World.consoleError]

/-- C2 (the code at the claim's input): with the default criteria
`all, '', asc, asc` the URL of `fetchTodos` is
`http://localhost:3001/todos&_sort=title&_order=asc,asc`; it contains no `?`
and is not well-formed. -/
theorem fetchTodos_default_url_not_well_formed :
    fetchTodosUrl initialState = "http://localhost:3001/todos&_sort=title&_order=asc,asc"
      ∧ '?' ∉ (fetchTodosUrl initialState).toList
      ∧ wellFormedUrl (fetchTodosUrl initialState) = false := by
  decide

/-- C3: for each of `fetchTodos`, `addTodo`, `updateTodo` and `deleteTodo`,
when the request made through `axios` fails, the todo store after the
operation is the store before it. -/
theorem store_unchanged_when_request_fails (axios : Axios) (w : World) :
    (∀ e, axios.get (fetchTodosUrl w.state) = Except.error e →
        (fetchTodos axios w).2.state.todos = w.state.todos)
      ∧ (∀ values now1 now2 e,
          axios.post (API_URL ++ "/todos") (addTodo_newTodo values now1 now2) = Except.error e →
          (addTodo axios values now1 now2 w).2.state.todos = w.state.todos)
      ∧ (∀ id values now e,
          axios.patch (API_URL ++ "/todos/" ++ id.toTemplate) (updateTodo_updates values now)
            = Except.error e →
          (updateTodo axios id values now w).2.state.todos = w.state.todos)
      ∧ (∀ id e, axios.delete (API_URL ++ "/todos/" ++ id.toTemplate) = Except.error e →
          (deleteTodo axios id w).2.state.todos = w.state.todos) := by
  refine ⟨?_, ?_, ?_, ?_⟩
  · intro e h
    simp [fetchTodos, fetchTodosResume, fetchTodosStart, h, World.send, World.consoleError]
  · intro values now1 now2 e h
    simp [addTodo, addTodoResume, addTodoStart, h, World.send, World.consoleError]
  · intro id values now e h
    simp [updateTodo, updateTodoResume, updateTodoStart, h, World.send, World.consoleError]
  · intro id e h
    simp [deleteTodo, deleteTodoResume, deleteTodoStart, h, World.send, World.consoleError]

/-- Witness of C3: every request fails with a network error, and the store of
two todos is the same after each of the four operations. -/
theorem store_unchanged_when_request_fails_witness :
    (fetchTodos (failingAxios AxiosError.network) sampleWorld).2.state.todos
        = sampleWorld.state.todos
      ∧ (addTodo (failingAxios AxiosError.network) sampleValues "t1" "t2" sampleWorld).2.state.todos
        = sampleWorld.state.todos
      ∧ (updateTodo (failingAxios AxiosError.network) (JsVal.num 1) sampleValues "t1"
          sampleWorld).2.state.todos = sampleWorld.state.todos
      ∧ (deleteTodo (failingAxios AxiosError.network) (JsVal.num 1) sampleWorld).2.state.todos
        = sampleWorld.state.todos :=
  ⟨(store_unchanged_when_request_fails (failingAxios AxiosError.network) sampleWorld).1
      AxiosError.network rfl,
    (store_unchanged_when_request_fails (failingAxios AxiosError.network) sampleWorld).2.1
      sampleValues "t1" "t2" AxiosError.network rfl,
    (store_unchanged_when_request_fails (failingAxios AxiosError.network) sampleWorld).2.2.1
      (JsVal.num 1) sampleValues "t1" AxiosError.network rfl,
    (store_unchanged_when_request_fails (failingAxios AxiosError.network) sampleWorld).2.2.2
      (JsVal.num 1) AxiosError.network rfl⟩

/-- C4 as stated fails: the resource answers `DELETE /todos/7` with status 404
(no record has id 7), and the promise of `deleteTodo(7)` is fulfilled; it is
not rejected with any error. -/
theorem deleteTodo_absent_id_is_fulfilled :
    (failingAxios (AxiosError.status 404)).delete (API_URL ++ "/todos/" ++ (JsVal.num 7).toTemplate)
        = Except.error (AxiosError.status 404)
      ∧ (∀ t ∈ sampleWorld.state.todos, t.get "id" ≠ JsVal.num 7)
      ∧ ¬ ∃ e, (deleteTodo (failingAxios (AxiosError.status 404)) (JsVal.num 7) sampleWorld).1
          = Settled.rejected e := by
  refine ⟨rfl, by decide, ?_⟩
  rintro ⟨e, h⟩
  simp [deleteTodo, deleteTodoResume, failingAxios] at h

/-- C4 amended: for each of `fetchTodos`, `addTodo`, `updateTodo` and
`deleteTodo`, when the request made through `axios` fails with error `e`
(whatever its kind, a 404 for an absent id included), the operation completes
normally: its promise is fulfilled, and the one thing added to the error
console is the operation's label together with `e`. -/
theorem failed_request_is_logged_and_fulfilled (axios : Axios) (w : World) :
    (∀ e, axios.get (fetchTodosUrl w.state) = Except.error e →
        (fetchTodos axios w).1 = Settled.fulfilled
          ∧ (fetchTodos axios w).2.console = w.console ++ [("Error fetching todos:", e)])
      ∧ (∀ values now1 now2 e,
          axios.post (API_URL ++ "/todos") (addTodo_newTodo values now1 now2) = Except.error e →
          (addTodo axios values now1 now2 w).1 = Settled.fulfilled
            ∧ (addTodo axios values now1 now2 w).2.console
              = w.console ++ [("Error adding todo:", e)])
      ∧ (∀ id values now e,
          axios.patch (API_URL ++ "/todos/" ++ id.toTemplate) (updateTodo_updates values now)
            = Except.error e →
          (updateTodo axios id values now w).1 = Settled.fulfilled
            ∧ (updateTodo axios id values now w).2.console
              = w.console ++ [("Error updating todo:", e)])
      ∧ (∀ id e, axios.delete (API_URL ++ "/todos/" ++ id.toTemplate) = Except.error e →
          (deleteTodo axios id w).1 = Settled.fulfilled
            ∧ (deleteTodo axios id w).2.console = w.console ++ [("Error deleting todo:", e)]) := by
  refine ⟨?_, ?_, ?_, ?_⟩
  · intro e h
    simp [fetchTodos, fetchTodosResume, fetchTodosStart, h, World.send, World.consoleError]
  · intro values now1 now2 e h
    simp [addTodo, addTodoResume, addTodoStart, h, World.send, World.consoleError]
  · intro id values now e h
    simp [updateTodo, updateTodoResume, updateTodoStart, h, World.send, World.consoleError]
  · intro id e h
    simp [deleteTodo, deleteTodoResume, deleteTodoStart, h, World.send, World.consoleError]

/-- Witness of C4 amended: `DELETE /todos/7` fails with status 404, and
`deleteTodo(7)` is fulfilled with one line on the error console. -/
theorem failed_request_is_logged_and_fulfilled_witness :
    (deleteTodo (failingAxios (AxiosError.status 404)) (JsVal.num 7) sampleWorld).1
        = Settled.fulfilled
      ∧ (deleteTodo (failingAxios (AxiosError.status 404)) (JsVal.num 7) sampleWorld).2.console
        = sampleWorld.console ++ [("Error deleting todo:", AxiosError.status 404)] :=
  (failed_request_is_logged_and_fulfilled (failingAxios (AxiosError.status 404)) sampleWorld).2.2.2
    (JsVal.num 7) (AxiosError.status 404) rfl

/-- C5 as stated fails: the store holds todos 1 and 2, `updateTodo(3, values)`
succeeds and the server returns todo 3. No entry of the store has id 3, so the
claim has todo 3 appended at the end; the code leaves the store as it was. -/
theorem updateTodo_absent_id_does_not_append :
    (answeringAxios [] (sampleTodo 3 "Walk" "uncompleted")).patch
        (API_URL ++ "/todos/" ++ (JsVal.num 3).toTemplate) (updateTodo_updates sampleValues "t1")
        = Except.ok (sampleTodo 3 "Walk" "uncompleted")
      ∧ (updateTodo (answeringAxios [] (sampleTodo 3 "Walk" "uncompleted")) (JsVal.num 3)
          sampleValues "t1" sampleWorld).2.state.todos = sampleWorld.state.todos
      ∧ upsertOne sampleWorld.state.todos (sampleTodo 3 "Walk" "uncompleted")
        = sampleWorld.state.todos ++ [sampleTodo 3 "Walk" "uncompleted"]
      ∧ (updateTodo (answeringAxios [] (sampleTodo 3 "Walk" "uncompleted")) (JsVal.num 3)
          sampleValues "t1" sampleWorld).2.state.todos
        ≠ upsertOne sampleWorld.state.todos (sampleTodo 3 "Walk" "uncompleted") := by
  refine ⟨rfl, by decide, by decide, by decide⟩

/-- C5 amended: `w` is the world when the handler is called and `w1` the world
when its request settles, whatever happened in between. After a successful
`addTodo` that the server answers with `t`, the new store is the store as it
was when `addTodo` was called with `t` appended at the end, whether or not an
entry with the id of `t` was present. After a successful `updateTodo(id, _)`
that the server answers with `t`, the new store has the length of the store
as it was when `updateTodo` was called, `t` stands at every position whose
entry had the id `id`, and every other entry of that store is unchanged and
keeps its position; nothing is appended. The store of `w1` plays no part: what
changed it while the request was in flight is overwritten. Run to completion,
each handler is its two parts with nothing in between. -/
theorem addTodo_appends_updateTodo_replaces (w w1 : World) (t : Todo) :
    (addTodoResume w.state.todos (Except.ok t) w1).2.state.todos = w.state.todos ++ [t]
      ∧ (∀ id : JsVal,
          (updateTodoResume id w.state.todos (Except.ok t) w1).2.state.todos.length
              = w.state.todos.length
            ∧ ∀ (i : Nat) (x : Todo), w.state.todos[i]? = some x →
                (updateTodoResume id w.state.todos (Except.ok t) w1).2.state.todos[i]?
                  = some (if x.get "id" = id then t else x))
      ∧ (∀ (axios : Axios) (values : JsObj) (now1 now2 : String),
          axios.post (API_URL ++ "/todos") (addTodo_newTodo values now1 now2) = Except.ok t →
          addTodo axios values now1 now2 w
            = addTodoResume w.state.todos (Except.ok t) (addTodoStart values now1 now2 w))
      ∧ (∀ (axios : Axios) (id : JsVal) (values : JsObj) (now : String),
          axios.patch (API_URL ++ "/todos/" ++ id.toTemplate) (updateTodo_updates values now)
            = Except.ok t →
          updateTodo axios id values now w
            = updateTodoResume id w.state.todos (Except.ok t) (updateTodoStart id values now w)) := by
  refine ⟨?_, ?_, ?_, ?_⟩
  · simp [addTodoResume, World.setTodos]
  · intro id
    refine ⟨?_, ?_⟩
    · simp [updateTodoResume, World.setTodos]
    · intro i x hx
      simp [updateTodoResume, World.setTodos, hx]
  · intro axios values now1 now2 h
    simp only [addTodo, h]
  · intro axios id values now h
    simp only [updateTodo, h]

/-- Witness of C5 amended: both handlers are called on the store of todos 1
and 2 and a list response brings todos 1, 2 and 3 while the request is in
flight. The create answered with todo 4 ends with todos 1, 2, 4; the update
of todo 1 ends with the renamed todo 1 at position 0 and todo 2 at position 1,
two entries in all. -/
theorem addTodo_appends_updateTodo_replaces_witness :
    addInFlightWorld.state.todos
        = [sampleTodo 1 "Buy milk" "uncompleted", sampleTodo 2 "Call" "completed",
            sampleTodo 3 "Walk" "uncompleted"]
      ∧ (addTodoResume sampleWorld.state.todos (Except.ok (sampleTodo 4 "Read" "uncompleted"))
          addInFlightWorld).2.state.todos
        = [sampleTodo 1 "Buy milk" "uncompleted", sampleTodo 2 "Call" "completed",
            sampleTodo 4 "Read" "uncompleted"]
      ∧ (updateTodoResume (JsVal.num 1) sampleWorld.state.todos
          (Except.ok (sampleTodo 1 "Buy oat milk" "uncompleted"))
          updateInFlightWorld).2.state.todos.length = 2
      ∧ (updateTodoResume (JsVal.num 1) sampleWorld.state.todos
          (Except.ok (sampleTodo 1 "Buy oat milk" "uncompleted"))
          updateInFlightWorld).2.state.todos[0]?
        = some (sampleTodo 1 "Buy oat milk" "uncompleted")
      ∧ (updateTodoResume (JsVal.num 1) sampleWorld.state.todos
          (Except.ok (sampleTodo 1 "Buy oat milk" "uncompleted"))
          updateInFlightWorld).2.state.todos[1]?
        = some (sampleTodo 2 "Call" "completed")
      ∧ addTodo (answeringAxios [] (sampleTodo 4 "Read" "uncompleted")) sampleValues "t1" "t2"
          sampleWorld
        = addTodoResume sampleWorld.state.todos (Except.ok (sampleTodo 4 "Read" "uncompleted"))
            (addTodoStart sampleValues "t1" "t2" sampleWorld) :=
  ⟨by decide,
    (addTodo_appends_updateTodo_replaces sampleWorld addInFlightWorld
      (sampleTodo 4 "Read" "uncompleted")).1,
    ((addTodo_appends_updateTodo_replaces sampleWorld updateInFlightWorld
      (sampleTodo 1 "Buy oat milk" "uncompleted")).2.1 (JsVal.num 1)).1,
    ((addTodo_appends_updateTodo_replaces sampleWorld updateInFlightWorld
      (sampleTodo 1 "Buy oat milk" "uncompleted")).2.1 (JsVal.num 1)).2
      0 (sampleTodo 1 "Buy milk" "uncompleted") rfl,
    ((addTodo_appends_updateTodo_replaces sampleWorld updateInFlightWorld
      (sampleTodo 1 "Buy oat milk" "uncompleted")).2.1 (JsVal.num 1)).2
      1 (sampleTodo 2 "Call" "completed") rfl,
    (addTodo_appends_updateTodo_replaces sampleWorld sampleWorld
      (sampleTodo 4 "Read" "uncompleted")).2.2.1
      (answeringAxios [] (sampleTodo 4 "Read" "uncompleted")) sampleValues "t1" "t2" rfl⟩

/-- C6 as stated fails: Delete is clicked on todo 1 and on todo 2 of the store
of todos 1 and 2 before either request settles, and both requests succeed.
When `DELETE /todos/2` succeeds the store holds todo 2 alone; after that
successful delete the store holds todo 1 alone. It is not the old store with
the entries of id 2 removed, and it is not a part of the old store: the
deleted todo 1 is back. -/
theorem deleteTodo_in_flight_brings_entry_back :
    twoDeletesIssued.state.todos
        = [sampleTodo 1 "Buy milk" "uncompleted", sampleTodo 2 "Call" "completed"]
      ∧ afterFirstDelete.state.todos = [sampleTodo 2 "Call" "completed"]
      ∧ afterSecondDelete.state.todos = [sampleTodo 1 "Buy milk" "uncompleted"]
      ∧ afterSecondDelete.state.todos
        ≠ afterFirstDelete.state.todos.filter (fun todo => decide (todo.get "id" ≠ JsVal.num 2))
      ∧ ¬ List.Sublist afterSecondDelete.state.todos afterFirstDelete.state.todos := by
  refine ⟨by decide, by decide, by decide, by decide, ?_⟩
  intro h
  have hmem : sampleTodo 1 "Buy milk" "uncompleted" ∈ afterFirstDelete.state.todos :=
    h.subset (by decide)
  revert hmem
  decide

/-- C6 amended: `w` is the world when `deleteTodo(id)` is called and `w1` the
world when its request settles, whatever happened in between. After a
successful delete the new store has no entry with that id; it is a sublist of
the store as it was when `deleteTodo(id)` was called (the remaining entries,
in their original order) in which every entry with another id occurs as often
as in that store; and when no entry of that store had the id, the new store is
that store. The store of `w1` plays no part: what changed it while the request
was in flight is overwritten. Run to completion, the handler is its two parts
with nothing in between. -/
theorem deleteTodo_filters_call_time_store (w w1 : World) (id : JsVal) :
    (∀ x ∈ (deleteTodoResume id w.state.todos (Except.ok ()) w1).2.state.todos,
        x.get "id" ≠ id)
      ∧ List.Sublist (deleteTodoResume id w.state.todos (Except.ok ()) w1).2.state.todos
          w.state.todos
      ∧ (∀ x : Todo, x.get "id" ≠ id →
          (deleteTodoResume id w.state.todos (Except.ok ()) w1).2.state.todos.count x
            = w.state.todos.count x)
      ∧ ((∀ x ∈ w.state.todos, x.get "id" ≠ id) →
          (deleteTodoResume id w.state.todos (Except.ok ()) w1).2.state.todos = w.state.todos)
      ∧ (∀ axios : Axios,
          axios.delete (API_URL ++ "/todos/" ++ id.toTemplate) = Except.ok () →
          deleteTodo axios id w
            = deleteTodoResume id w.state.todos (Except.ok ()) (deleteTodoStart id w)) := by
  have hs : (deleteTodoResume id w.state.todos (Except.ok ()) w1).2.state.todos
      = w.state.todos.filter (fun todo => decide (todo.get "id" ≠ id)) := by
    simp [deleteTodoResume, World.setTodos]
  rw [hs]
  refine ⟨?_, List.filter_sublist _, ?_, ?_, ?_⟩
  · intro x hx
    simpa using (List.mem_filter.mp hx).2
  · intro x hx
    rw [List.count_filter]
    simpa using hx
  · intro hall
    apply List.filter_eq_self.mpr
    intro x hx
    simpa using hall x hx
  · intro axios h
    simp only [deleteTodo, h]

/-- Witness of C6 amended: `deleteTodo(2)` was called on the store of todos 1
and 2 and settles when the store holds todo 2 alone; the new store is todo 1,
the call-time store without id 2. `deleteTodo(3)` called on the store of todos
1 and 2 leaves that store. Run to completion with a confirming server,
`deleteTodo(1)` is its two parts. -/
theorem deleteTodo_filters_call_time_store_witness :
    (∀ x ∈ (deleteTodoResume (JsVal.num 2) sampleWorld.state.todos (Except.ok ())
        afterFirstDelete).2.state.todos, x.get "id" ≠ JsVal.num 2)
      ∧ (deleteTodoResume (JsVal.num 2) sampleWorld.state.todos (Except.ok ())
          afterFirstDelete).2.state.todos = [sampleTodo 1 "Buy milk" "uncompleted"]
      ∧ (deleteTodoResume (JsVal.num 3) sampleWorld.state.todos (Except.ok ())
          afterFirstDelete).2.state.todos = sampleWorld.state.todos
      ∧ deleteTodo (answeringAxios [] (sampleTodo 1 "Buy milk" "uncompleted")) (JsVal.num 1)
          sampleWorld
        = deleteTodoResume (JsVal.num 1) sampleWorld.state.todos (Except.ok ())
            (deleteTodoStart (JsVal.num 1) sampleWorld) :=
  ⟨(deleteTodo_filters_call_time_store sampleWorld afterFirstDelete (JsVal.num 2)).1,
    by decide,
    (deleteTodo_filters_call_time_store sampleWorld afterFirstDelete (JsVal.num 3)).2.2.2.1
      (by decide),
    (deleteTodo_filters_call_time_store sampleWorld sampleWorld (JsVal.num 1)).2.2.2.2
      (answeringAxios [] (sampleTodo 1 "Buy milk" "uncompleted")) rfl⟩

/-- C7 (the code at a failing input): the record that `addTodo` builds carries
the draft's title and description and the status `'uncompleted'`; its
`created_at` is the first clock reading and its `updated_at` the second one.
When the clock advances by a millisecond between the two readings the record
that is posted has a `created_at` different from its `updated_at`. -/
theorem addTodo_newTodo_reads_clock_twice :
    (∀ (values : JsObj) (now1 now2 : String),
        (addTodo_newTodo values now1 now2).get "title" = values.get "title"
          ∧ (addTodo_newTodo values now1 now2).get "description" = values.get "description"
          ∧ (addTodo_newTodo values now1 now2).get "status" = JsVal.str "uncompleted"
          ∧ (addTodo_newTodo values now1 now2).get "created_at" = JsVal.str now1
          ∧ (addTodo_newTodo values now1 now2).get "updated_at" = JsVal.str now2)
      ∧ (addTodo (failingAxios AxiosError.network) sampleValues
          "2024-01-01T00:00:00.000Z" "2024-01-01T00:00:00.001Z" sampleWorld).2.requests
        = [⟨Method.POST, "http://localhost:3001/todos",
            some (addTodo_newTodo sampleValues
              "2024-01-01T00:00:00.000Z" "2024-01-01T00:00:00.001Z")⟩]
      ∧ (addTodo_newTodo sampleValues
          "2024-01-01T00:00:00.000Z" "2024-01-01T00:00:00.001Z").get "created_at"
        ≠ (addTodo_newTodo sampleValues
          "2024-01-01T00:00:00.000Z" "2024-01-01T00:00:00.001Z").get "updated_at" := by
  refine ⟨fun values now1 now2 => ⟨rfl, rfl, rfl, rfl, rfl⟩, by decide, by decide⟩

/-- C8: for all criteria the URL of `fetchTodos` is
`base + '/todos' + S + T + '&_sort=title&_order=' + titleOrder + ',' + dateOrder`,
where `S` is `'?status=' + statusFilter` when the status filter is not `'all'`
and empty otherwise, and `T` is `'&title_like=' + titleSubstring` when the
substring is non-empty and empty otherwise; nothing else is added. -/
theorem fetchTodosUrl_closed_form (s : State) :
    fetchTodosUrl s
      = API_URL ++ "/todos"
        ++ (if s.filterStatus = "all" then "" else "?status=" ++ s.filterStatus)
        ++ (if s.filterTitle = "" then "" else "&title_like=" ++ s.filterTitle)
        ++ "&_sort=title&_order=" ++ s.sortTitle ++ "," ++ s.sortDate := by
  unfold fetchTodosUrl
  by_cases h1 : s.filterStatus = "all" <;> by_cases h2 : s.filterTitle = "" <;>
    simp only [Id.run, h1, h2, ne_eq, not_true_eq_false, not_false_eq_true, if_true, if_false,
      pure_bind, bind_pure, pure, bind, String.append_assoc, String.append_empty,
      String.empty_append, ite_true, ite_false, ite_not]

/-! ### Status under PATCH -/

/-- Overwriting the property `k` in place leaves the lookup of another key. -/
theorem lookup_map_overwrite (k k' : String) (v : JsVal) (h : k ≠ k')
    (l : List (String × JsVal)) :
    (l.map (fun p => if p.1 = k then (k, v) else p)).lookup k' = l.lookup k' := by
  have hk : (k' == k) = false := beq_eq_false_iff_ne.mpr (Ne.symm h)
  induction l with
  | nil => rfl
  | cons p l ih =>
    obtain ⟨a, b⟩ := p
    by_cases ha : a = k
    · simp only [List.map_cons, List.lookup_cons, ha, if_true, hk, ih]
    · simp only [List.map_cons, List.lookup_cons, ha, if_false, ih]

/-- Adding the property `k` at the end leaves the lookup of another key. -/
theorem lookup_append_other (k k' : String) (v : JsVal) (h : k ≠ k')
    (l : List (String × JsVal)) :
    (l ++ [(k, v)]).lookup k' = l.lookup k' := by
  have hk : (k' == k) = false := beq_eq_false_iff_ne.mpr (Ne.symm h)
  induction l with
  | nil => simp only [List.nil_append, List.lookup_cons, hk, List.lookup_nil]
  | cons p l ih =>
    obtain ⟨a, b⟩ := p
    simp only [List.cons_append, List.lookup_cons, ih]

/-- A key that no property carries is looked up in vain. -/
theorem lookup_absent (k : String) (l : List (String × JsVal)) (h : ∀ p ∈ l, p.1 ≠ k) :
    l.lookup k = none := by
  induction l with
  | nil => rfl
  | cons p l ih =>
    obtain ⟨a, b⟩ := p
    have hka : (k == a) = false :=
      beq_eq_false_iff_ne.mpr (Ne.symm (h (a, b) (List.mem_cons_self _ _)))
    simp only [List.lookup_cons, hka, ih (fun q hq => h q (List.mem_cons_of_mem _ hq))]

/-- The assignment `o[k] = v` does not change what is read under another key. -/
theorem JsObj.get_set_other (o : JsObj) (k k' : String) (v : JsVal) (h : k ≠ k') :
    (o.set k v).get k' = o.get k' := by
  have hprops : (o.set k v).props.lookup k' = o.props.lookup k' := by
    unfold JsObj.set
    split_ifs
    · exact lookup_map_overwrite k k' v h _
    · exact lookup_append_other k k' v h _
  unfold JsObj.get
  rw [hprops]

/-- A sequence of assignments, none under the key `k'`, does not change what
is read under `k'`. -/
theorem foldl_set_get_other (k' : String) (ps : List (String × JsVal))
    (h : ∀ p ∈ ps, p.1 ≠ k') (r : JsObj) :
    (ps.foldl (fun acc p => acc.set p.1 p.2) r).get k' = r.get k' := by
  induction ps generalizing r with
  | nil => rfl
  | cons p ps ih =>
    rw [List.foldl_cons, ih (fun q hq => h q (List.mem_cons_of_mem _ hq))]
    exact JsObj.get_set_other r p.1 k' p.2 (h p (List.mem_cons_self _ _))

/-- The body of `updateTodo` has no property `status`, neither before nor
after `JSON.stringify`. -/
theorem updateTodo_updates_no_status (values : JsObj) (now : String) :
    (updateTodo_updates values now).get "status" = JsVal.undefined
      ∧ ∀ p ∈ (updateTodo_updates values now).toJSON.props, p.1 ≠ "status" := by
  refine ⟨rfl, ?_⟩
  intro p hp
  have hp' : p ∈ (updateTodo_updates values now).props := (List.mem_filter.mp hp).1
  simp only [updateTodo_updates, List.mem_cons, List.mem_singleton, List.not_mem_nil,
    or_false] at hp'
  rcases hp' with h | h | h <;> rw [h] <;> simp

/-- Patching a record with the body of `updateTodo` keeps its status. -/
theorem patchRecord_updates_status (values : JsObj) (now : String) (r : Todo) :
    (patchRecord (updateTodo_updates values now) r).get "status" = r.get "status" :=
  foldl_set_get_other "status" _ (updateTodo_updates_no_status values now).2 r

/-- The requests that `updateTodo` hands to `axios`: the PATCH request alone. -/
theorem updateTodo_requests (axios : Axios) (id : JsVal) (values : JsObj) (now : String)
    (w : World) :
    (updateTodo axios id values now w).2.requests
      = w.requests ++ [updateTodoRequest id values now] := by
  cases h : axios.patch (API_URL ++ "/todos/" ++ id.toTemplate) (updateTodo_updates values now) <;>
    simp [updateTodo, updateTodoResume, updateTodoStart, h, World.send, World.setTodos,
      World.consoleError]

/-- The requests that `markCompleted` hands to `axios`: the PATCH request of
`updateTodo` alone. -/
theorem markCompleted_requests (axios : Axios) (id : JsVal) (now1 now2 : String) (w : World) :
    (markCompleted axios id now1 now2 w).2.requests
      = w.requests ++ [updateTodoRequest id (markCompleted_updates now1) now2] := by
  cases h : axios.patch (API_URL ++ "/todos/" ++ id.toTemplate)
      (updateTodo_updates (markCompleted_updates now1) now2) <;>
    simp [markCompleted, updateTodo, updateTodoResume, updateTodoStart, h, World.send,
      World.setTodos, World.consoleError]

/-- The requests of a call: one PATCH request whose body is a body of
`updateTodo`. -/
theorem Call.run_requests (axios : Axios) (c : Call) (w : World) :
    ∃ id values now,
      (c.run axios w).2.requests.drop w.requests.length = [updateTodoRequest id values now] := by
  cases c with
  | update id values now =>
    exact ⟨id, values, now, by simp [Call.run, updateTodo_requests]⟩
  | markCompleted id now1 now2 =>
    exact ⟨id, markCompleted_updates now1, now2, by simp [Call.run, markCompleted_requests]⟩

/-- One call keeps the number of records and the status of every record. -/
theorem Call.step_status (axios : Axios) (c : Call) (s : System) (i : Nat) (r : Todo)
    (h : s.db[i]? = some r) :
    ∃ r1, (c.step axios s).db[i]? = some r1 ∧ r1.get "status" = r.get "status" := by
  obtain ⟨id, values, now, hreq⟩ := Call.run_requests axios c s.world
  simp only [Call.step, hreq, List.foldl_cons, List.foldl_nil, resourceHandle,
    updateTodoRequest, List.getElem?_map, h, Option.map_some']
  split
  · exact ⟨_, rfl, patchRecord_updates_status values now r⟩
  · exact ⟨_, rfl, rfl⟩

/-- A sequence of calls keeps the status of every record. -/
theorem runCalls_status (calls : List (Axios × Call)) (s : System) (i : Nat) (r : Todo)
    (h : s.db[i]? = some r) :
    ∃ r1, (runCalls calls s).db[i]? = some r1 ∧ r1.get "status" = r.get "status" := by
  induction calls generalizing s r with
  | nil => exact ⟨r, h, rfl⟩
  | cons ac rest ih =>
    obtain ⟨axios, c⟩ := ac
    obtain ⟨r1, h1, hs1⟩ := Call.step_status axios c s i r h
    obtain ⟨r2, h2, hs2⟩ := ih (c.step axios s) r1 h1
    exact ⟨r2, h2, hs2.trans hs1⟩

/-- C9: no request that `updateTodo` or `markCompleted` hands to `axios` has a
body whose `status` is `'uncompleted'`, neither as built nor as JSON; and
over a resource that applies PATCH bodies field by field, a record whose
status is `'completed'` is still a record with status `'completed'` after any
sequence of `updateTodo` and `markCompleted` calls, whatever `axios` answers. -/
theorem completed_never_regresses (calls : List (Axios × Call)) (s : System) (i : Nat)
    (r : Todo) (h : s.db[i]? = some r) (hc : r.get "status" = JsVal.str "completed") :
    (∀ (axios : Axios) (c : Call) (w : World),
        ∀ req ∈ (c.run axios w).2.requests.drop w.requests.length,
          ∃ body, req.data = some body
            ∧ body.get "status" ≠ JsVal.str "uncompleted"
            ∧ body.toJSON.get "status" ≠ JsVal.str "uncompleted")
      ∧ ∃ r1, (runCalls calls s).db[i]? = some r1 ∧ r1.get "status" = JsVal.str "completed" := by
  refine ⟨?_, ?_⟩
  · intro axios c w req hreq
    obtain ⟨id, values, now, hrun⟩ := Call.run_requests axios c w
    rw [hrun, List.mem_singleton] at hreq
    subst hreq
    refine ⟨updateTodo_updates values now, rfl, ?_, ?_⟩
    · rw [(updateTodo_updates_no_status values now).1]
      decide
    · have hj : (updateTodo_updates values now).toJSON.get "status" = JsVal.undefined := by
        unfold JsObj.get
        rw [lookup_absent "status" _ (updateTodo_updates_no_status values now).2]
      rw [hj]
      decide
  · obtain ⟨r1, h1, hs1⟩ := runCalls_status calls s i r h
    exact ⟨r1, h1, hs1.trans hc⟩

/-- Witness of C9: the record with id 2 is completed; after `markCompleted(2)`
twice and an edit it is still completed, with the title, description and
`updated_at` of the edit. -/
theorem completed_never_regresses_witness :
    (∃ r1, (runCalls sampleCalls sampleSystem).db[1]? = some r1
        ∧ r1.get "status" = JsVal.str "completed")
      ∧ (runCalls sampleCalls sampleSystem).db
        = [sampleTodo 1 "Buy milk" "uncompleted",
            ⟨[("id", JsVal.num 2), ("title", JsVal.str "Buy milk"), ("description", JsVal.str "2%"),
              ("status", JsVal.str "completed"),
              ("created_at", JsVal.str "2024-01-01T00:00:00.000Z"),
              ("updated_at", JsVal.str "2024-01-04T00:00:00.000Z")]⟩] :=
  ⟨(completed_never_regresses sampleCalls sampleSystem 1 (sampleTodo 2 "Call" "completed")
      rfl rfl).2, by decide⟩

/-! ### Requests in flight -/

/-- C10 as stated fails: request A is issued with the default criteria, the
status filter changes to `completed` and request B is issued, B resolves with
todo 2 and then A resolves with todos 1 and 2. B is the most recently issued
request, yet the store at the end holds the result of A. -/
theorem stale_list_response_overwrites_store :
    ((AsyncWorld.mk initialWorld []).run
        [Event.fetchIssued,
          Event.criteriaChanged "completed" "" "asc" "asc",
          Event.settled 1 (Except.ok [sampleTodo 2 "Call" "completed"]),
          Event.settled 0 (Except.ok [sampleTodo 1 "Buy milk" "uncompleted",
            sampleTodo 2 "Call" "completed"])]).world.requests
        = [⟨Method.GET, "http://localhost:3001/todos&_sort=title&_order=asc,asc", none⟩,
            ⟨Method.GET,
              "http://localhost:3001/todos?status=completed&_sort=title&_order=asc,asc", none⟩]
      ∧ ((AsyncWorld.mk initialWorld []).run
        [Event.fetchIssued,
          Event.criteriaChanged "completed" "" "asc" "asc",
          Event.settled 1 (Except.ok [sampleTodo 2 "Call" "completed"]),
          Event.settled 0 (Except.ok [sampleTodo 1 "Buy milk" "uncompleted",
            sampleTodo 2 "Call" "completed"])]).world.state.todos
        ≠ [sampleTodo 2 "Call" "completed"] := by
  refine ⟨by decide, by decide⟩

/-- C10 amended: a list response is applied to the store when it resolves,
whether or not a later list request has been issued. In every run in which
list request A is issued, then the criteria change and list request B is
issued before A resolves, B resolves with `dB` and A resolves after B with
`dA`, the store at the end holds `dA`, the result of A. -/
theorem last_resolved_list_response_wins (a : AsyncWorld) (fs ft st sd : String)
    (dA dB : List Todo)
    (hc : ({ a.world.state with
              filterStatus := fs, filterTitle := ft, sortTitle := st, sortDate := sd } : State)
            ≠ a.world.state) :
    (a.run
        [Event.fetchIssued,
          Event.criteriaChanged fs ft st sd,
          Event.settled (a.world.requests.length + 1) (Except.ok dB),
          Event.settled a.world.requests.length (Except.ok dA)]).world.state.todos = dA := by
  have hne : a.world.requests.length + 1 ≠ a.world.requests.length := Nat.succ_ne_self _
  have hB : a.world.requests.length + 1
      ∈ a.pending ++ [a.world.requests.length] ++ [a.world.requests.length + 1] := by simp
  have hA : a.world.requests.length
      ∈ (a.pending ++ [a.world.requests.length] ++ [a.world.requests.length + 1]).erase
          (a.world.requests.length + 1) :=
    (List.mem_erase_of_ne (Ne.symm hne)).mpr (by simp)
  simp only [AsyncWorld.run, List.foldl_cons, List.foldl_nil, AsyncWorld.step, AsyncWorld.issue,
    hc, if_false, fetchTodosStart, World.send, List.length_append, List.length_singleton,
    hB, if_true, hA, fetchTodosResume, World.setTodos]

/-- Witness of C10 amended: the run of the counterexample ends with the store
holding the result of A. -/
theorem last_resolved_list_response_wins_witness :
    ((AsyncWorld.mk initialWorld []).run
        [Event.fetchIssued,
          Event.criteriaChanged "completed" "" "asc" "asc",
          Event.settled 1 (Except.ok [sampleTodo 2 "Call" "completed"]),
          Event.settled 0 (Except.ok [sampleTodo 1 "Buy milk" "uncompleted",
            sampleTodo 2 "Call" "completed"])]).world.state.todos
      = [sampleTodo 1 "Buy milk" "uncompleted", sampleTodo 2 "Call" "completed"] :=
  last_resolved_list_response_wins (AsyncWorld.mk initialWorld []) "completed" "" "asc" "asc"
    [sampleTodo 1 "Buy milk" "uncompleted", sampleTodo 2 "Call" "completed"]
    [sampleTodo 2 "Call" "completed"] (by decide)

end TodoApp
